import Mathlib

/-!
Shallow embedding of `src/backend/app.py` (a Flask + MongoDB backend for a
portfolio site).  Documents are flat JSON objects, the Mongo collections are
Lean lists of documents, and the `counters` collection is modelled as a map
from sequence name to the stored `sequence_value`.  Each route handler becomes
a pure function from the database state and the parsed request to a response
paired with the successor state.
-/

/-- A JSON scalar value stored in a document field. -/
inductive JVal where
  | s (v : String)
  | i (v : Int)
  | b (v : Bool)
deriving DecidableEq

/-- A (flat) BSON/JSON document: an ordered list of field/value pairs. -/
abbrev Doc := List (String × JVal)

/-- `d.get(key)`: first value bound to `key` in the document, if any. -/
def doc_get : Doc → String → Option JVal
  | [], _ => none
  | (k, v) :: rest, key => if k = key then some v else doc_get rest key

/-- `key in d`: Python dict membership test. -/
def hasKey (d : Doc) (k : String) : Bool :=
  d.any (fun kv => kv.1 == k)

/-- The `counters` collection: sequence name (`_id`) to its `sequence_value`.
`none` means no counter document exists for that name. -/
abbrev Counters := String → Option Int

/-- Store one counter document (`update_one` with `$set` / the write half of
`$inc`, both with `upsert=True`): the counter for `name` now holds `v`. -/
def counters_set (cs : Counters) (name : String) (v : Int) : Counters :=
  fun n => if n = name then some v else cs n

/-- `counter_collection.find_one_and_update({'_id': name},
{'$inc': {'sequence_value': 1}}, return_document=AFTER, upsert=True)`:
atomically increment (creating the field at 1 when the document is absent,
per Mongo `$inc` upsert semantics) and return the post-image document. -/
def find_one_and_update_inc (cs : Counters) (name : String) :
    Option Doc × Counters :=
  match cs name with
  | some v =>
      (some [("_id", JVal.s name), ("sequence_value", JVal.i (v + 1))],
       counters_set cs name (v + 1))
  | none =>
      (some [("_id", JVal.s name), ("sequence_value", JVal.i 1)],
       counters_set cs name 1)

/-- `int(counter.get('sequence_value', 1))`: the stored sequence value, with
the Python-side default of `1` when the field is missing (the store only ever
holds integers there, so the non-integer case keeps the default). -/
def seq_value_of (d : Doc) : Int :=
  match doc_get d "sequence_value" with
  | some (JVal.i v) => v
  | _ => 1

/-- The body of `get_next_id` after the store primitive has reported `res`:
`if not counter:` (Python falsiness: `None` or an empty document) performs the
explicit `update_one` upsert to `sequence_value = 1` and returns `1`;
otherwise it returns `int(counter.get('sequence_value', 1))`. -/
def get_next_id_body (res : Option Doc) (cs : Counters) (name : String) :
    Int × Counters :=
  match res with
  | none => (1, counters_set cs name 1)
  | some counter =>
      if counter = [] then (1, counters_set cs name 1)
      else (seq_value_of counter, cs)

/-- `get_next_id(collection_name)`: atomic find-and-modify increment, then the
falsiness check with its upsert fallback. -/
def get_next_id (cs : Counters) (name : String) : Int × Counters :=
  let r := find_one_and_update_inc cs name
  get_next_id_body r.1 r.2 name

/-- The sequence value currently recorded for `name` (`0` when the counter
document does not exist yet): the highest value the generator has issued. -/
def seqv (cs : Counters) (name : String) : Int :=
  (cs name).getD 0

/-- Run a list of `get_next_id` calls (a serialization of concurrent callers;
each call is a single atomic store operation) and return the final counters. -/
def run_trace (cs : Counters) : List String → Counters
  | [] => cs
  | nm :: rest => run_trace (get_next_id cs nm).2 rest

/-- Run a list of `get_next_id` calls and record, in order, each call's
sequence name together with the value it returned. -/
def trace_outputs (cs : Counters) : List String → List (String × Int)
  | [] => []
  | nm :: rest =>
      (nm, (get_next_id cs nm).1) :: trace_outputs (get_next_id cs nm).2 rest

/-- The values returned to the callers that asked for sequence `name`. -/
def outputsFor (name : String) (cs : Counters) (tr : List String) : List Int :=
  (trace_outputs cs tr).filterMap
    (fun p => if p.1 = name then some p.2 else none)

/-- The base64 alphabet character for a 6-bit group. -/
def b64char (n : Nat) : Char :=
  "ABCDEFGHIJKLMNOPQRSTUVWXYZabcdefghijklmnopqrstuvwxyz0123456789+/".toList.getD n 'A'

/-- `base64.b64encode(bytes).decode('utf-8')`: standard base64 with `=`
padding, over a byte list (each entry in `0..255`). -/
def b64encode : List Nat → String
  | [] => ""
  | [a] =>
      String.mk [b64char (a / 4 % 64), b64char (a % 4 * 16)] ++ "=="
  | [a, b] =>
      String.mk [b64char (a / 4 % 64), b64char ((a % 4 * 16 + b / 16) % 64),
                 b64char (b % 16 * 4)] ++ "="
  | a :: b :: c :: rest =>
      String.mk [b64char (a / 4 % 64), b64char ((a % 4 * 16 + b / 16) % 64),
                 b64char ((b % 16 * 4 + c / 64) % 64), b64char (c % 64)] ++
      b64encode rest

lemma b64encode_sample : b64encode [1, 2, 3] = "AQID" := by decide

lemma b64encode_sample_padded : b64encode [104, 105] = "aGk=" := by decide

/-- The whole database state: the five collections plus a counter from which
the store mints fresh storage identifiers (`ObjectId`s) for inserts. -/
structure DB where
  projects : List Doc
  clients : List Doc
  contacts : List Doc
  subscribers : List Doc
  counters : Counters
  nextOid : Nat

/-- `str(ObjectId)` for the `n`-th identifier the store hands out. -/
def oidStr (n : Nat) : String :=
  "oid-" ++ toString n

/-- `collection.insert_one(d)`: the store appends the document, stamped with
the freshly assigned storage identifier `_id`. -/
def insert_one (docs : List Doc) (d : Doc) (oid : Nat) : List Doc :=
  docs ++ [d ++ [("_id", JVal.s (oidStr oid))]]

/-- A route handler's outcome: `400 {"error": msg}`, `201 {"message": msg}`
(with the `data` document when the route returns one), `500 {"error": msg}`,
or no `return` statement executed at all (the function body fell through,
handing `None` back to the framework). -/
inductive Resp where
  | badRequest (error : String)
  | created (message : String) (data : Option Doc)
  | serverError (error : String)
  | noResponse
deriving DecidableEq

/-- The HTTP status code of a response (`0` when the handler body produced no
response of its own). -/
def Resp.status : Resp → Nat
  | Resp.badRequest _ => 400
  | Resp.created _ _ => 201
  | Resp.serverError _ => 500
  | Resp.noResponse => 0

/-- `POST /api/contact` (`submit_contact`): `request.json` is `p` (`none`
when no JSON body was supplied); `if not data:` rejects `None` and the empty
object, anything else is inserted verbatim. -/
def submit_contact (db : DB) (p : Option Doc) : Resp × DB :=
  match p with
  | none => (Resp.badRequest "No data provided", db)
  | some data =>
      if data.isEmpty then (Resp.badRequest "No data provided", db)
      else
        (Resp.created "Contact submitted" none,
         { db with contacts := insert_one db.contacts data db.nextOid,
                   nextOid := db.nextOid + 1 })

/-- `POST /api/subscribe` (`subscribe`): rejects a missing/empty payload and a
payload without an `email` key; inserts anything else verbatim. -/
def subscribe (db : DB) (p : Option Doc) : Resp × DB :=
  match p with
  | none => (Resp.badRequest "Email is required", db)
  | some data =>
      if data.isEmpty || !(hasKey data "email") then
        (Resp.badRequest "Email is required", db)
      else
        (Resp.created "Subscribed" none,
         { db with subscribers := insert_one db.subscribers data db.nextOid,
                   nextOid := db.nextOid + 1 })

/-- One uploaded file part (Werkzeug `FileStorage`): its filename, MIME
content type and byte content.  The object is Python-falsy exactly when its
filename is empty. -/
structure FilePart where
  filename : String
  content_type : String
  content : List Nat
deriving DecidableEq

/-- A parsed `POST /api/admin/project` request: the `image` entry of
`request.files` (absent or present) and `request.form.get` of the two text
fields (`none` when the field is missing). -/
structure ProjectReq where
  image : Option FilePart
  name : Option String
  description : Option String
deriving DecidableEq

/-- A parsed `POST /api/admin/client` request. -/
structure ClientReq where
  image : Option FilePart
  name : Option String
  description : Option String
  designation : Option String
deriving DecidableEq

/-- Python falsiness of a `request.form.get` result: `None` or `""`. -/
def opt_str_falsy : Option String → Bool
  | none => true
  | some s => s == ""

/-- `POST /api/admin/project` (`add_project`).  The branches mirror the
source: missing `image` part → 400; falsy `name`/`description` → 400; then
`if file:` guards the whole success path, so a falsy (empty-filename) file
part reaches no `return` at all.  No expression in the `try` body can raise
in this model, so the `except` branch (`Resp.serverError`) is unreachable. -/
def add_project (db : DB) (req : ProjectReq) : Resp × DB :=
  match req.image with
  | none => (Resp.badRequest "No image uploaded", db)
  | some file =>
      let name := req.name
      let description := req.description
      if opt_str_falsy name || opt_str_falsy description then
        (Resp.badRequest "Name and description are required", db)
      else if !(file.filename == "") then
        let encoded_string := b64encode file.content
        let image_url := "data:" ++ file.content_type ++ ";base64," ++ encoded_string
        let project_id := (get_next_id db.counters "projects").1
        let project_data : Doc :=
          [("id", JVal.i project_id), ("name", JVal.s (name.getD "")),
           ("description", JVal.s (description.getD "")),
           ("image_url", JVal.s image_url)]
        (Resp.created "Project created"
           (some (project_data ++ [("_id", JVal.s (oidStr db.nextOid))])),
         { db with counters := (get_next_id db.counters "projects").2,
                   projects := insert_one db.projects project_data db.nextOid,
                   nextOid := db.nextOid + 1 })
      else (Resp.noResponse, db)

/-- `POST /api/admin/client` (`add_client`): same shape as `add_project` with
the extra required `designation` field and the `clients` sequence. -/
def add_client (db : DB) (req : ClientReq) : Resp × DB :=
  match req.image with
  | none => (Resp.badRequest "No image uploaded", db)
  | some file =>
      let name := req.name
      let description := req.description
      let designation := req.designation
      if opt_str_falsy name || opt_str_falsy description ||
          opt_str_falsy designation then
        (Resp.badRequest "Name, description, and designation are required", db)
      else if !(file.filename == "") then
        let encoded_string := b64encode file.content
        let image_url := "data:" ++ file.content_type ++ ";base64," ++ encoded_string
        let client_id := (get_next_id db.counters "clients").1
        let client_data : Doc :=
          [("id", JVal.i client_id), ("name", JVal.s (name.getD "")),
           ("description", JVal.s (description.getD "")),
           ("designation", JVal.s (designation.getD "")),
           ("image_url", JVal.s image_url)]
        (Resp.created "Client added"
           (some (client_data ++ [("_id", JVal.s (oidStr db.nextOid))])),
         { db with counters := (get_next_id db.counters "clients").2,
                   clients := insert_one db.clients client_data db.nextOid,
                   nextOid := db.nextOid + 1 })
      else (Resp.noResponse, db)

/-- The projection `{'_id': 0}`: drop the storage identifier field. -/
def strip_id (d : Doc) : Doc :=
  d.filter (fun kv => !(kv.1 == "_id"))

/-- `collection.find({}, {'_id': 0})`: every stored document, in store
order, with the storage identifier stripped. -/
def find_all_no_id (docs : List Doc) : List Doc :=
  docs.map strip_id

/-- `GET /api/projects` (`get_projects`). -/
def get_projects (db : DB) : List Doc :=
  find_all_no_id db.projects

/-- `GET /api/clients` (`get_clients`). -/
def get_clients (db : DB) : List Doc :=
  find_all_no_id db.clients

/-- `GET /api/admin/contacts` (`get_all_contacts`). -/
def get_all_contacts (db : DB) : List Doc :=
  find_all_no_id db.contacts

/-- `GET /api/admin/subscribers` (`get_all_subscribers`). -/
def get_all_subscribers (db : DB) : List Doc :=
  find_all_no_id db.subscribers

/-- A database with empty collections and no counter documents, used for the
concrete witnesses below. -/
def emptyDB : DB :=
  { projects := [], clients := [], contacts := [], subscribers := [],
    counters := fun _ => none, nextOid := 0 }

lemma get_next_id_eq (cs : Counters) (name : String) :
    get_next_id cs name =
      (seqv cs name + 1, counters_set cs name (seqv cs name + 1)) := by
  cases h : cs name <;>
    simp [get_next_id, find_one_and_update_inc, get_next_id_body,
          seq_value_of, doc_get, seqv, h]

lemma get_next_id_fst (cs : Counters) (name : String) :
    (get_next_id cs name).1 = seqv cs name + 1 := by
  rw [get_next_id_eq]

lemma get_next_id_snd (cs : Counters) (name : String) :
    (get_next_id cs name).2 = counters_set cs name (seqv cs name + 1) := by
  rw [get_next_id_eq]

lemma seqv_set_self (cs : Counters) (name : String) (v : Int) :
    seqv (counters_set cs name v) name = v := by
  simp [seqv, counters_set]

lemma seqv_set_other (cs : Counters) (name n : String) (v : Int)
    (h : n ≠ name) : seqv (counters_set cs name v) n = seqv cs n := by
  simp [seqv, counters_set, h]

lemma seqv_step_mono (cs : Counters) (nm n : String) :
    seqv cs n ≤ seqv (get_next_id cs nm).2 n := by
  rw [get_next_id_snd]
  by_cases h : n = nm
  · subst h
    rw [seqv_set_self]
    cases h' : cs n
    · simp [seqv, h']
    · simp [seqv, h']
  · rw [seqv_set_other cs nm n _ h]

lemma run_trace_mono (tr : List String) :
    ∀ cs n, seqv cs n ≤ seqv (run_trace cs tr) n := by
  induction tr with
  | nil => intro cs n; exact le_refl _
  | cons nm rest ih =>
      intro cs n
      exact le_trans (seqv_step_mono cs nm n) (ih (get_next_id cs nm).2 n)

lemma outputsFor_nil (name : String) (cs : Counters) :
    outputsFor name cs [] = [] := rfl

lemma outputsFor_cons (name : String) (cs : Counters) (nm : String)
    (rest : List String) :
    outputsFor name cs (nm :: rest) =
      if nm = name then
        (get_next_id cs nm).1 :: outputsFor name (get_next_id cs nm).2 rest
      else outputsFor name (get_next_id cs nm).2 rest := by
  by_cases h : nm = name <;>
    simp [outputsFor, trace_outputs, List.filterMap_cons, h]

lemma outputsFor_gt (tr : List String) :
    ∀ cs name v, v ∈ outputsFor name cs tr → seqv cs name < v := by
  induction tr with
  | nil => intro cs name v hv; simp [outputsFor_nil] at hv
  | cons nm rest ih =>
      intro cs name v hv
      rw [outputsFor_cons] at hv
      by_cases h : nm = name
      · subst h
        rw [if_pos rfl] at hv
        rcases List.mem_cons.mp hv with h1 | h1
        · rw [h1, get_next_id_fst]; omega
        · have h2 := ih _ _ _ h1
          have h3 := seqv_step_mono cs nm nm
          omega
      · rw [if_neg h] at hv
        have h2 := ih _ _ _ hv
        have h3 := seqv_step_mono cs nm name
        omega

lemma outputsFor_pairwise_lt (tr : List String) :
    ∀ cs name, (outputsFor name cs tr).Pairwise (· < ·) := by
  induction tr with
  | nil => intro cs name; simp [outputsFor_nil]
  | cons nm rest ih =>
      intro cs name
      rw [outputsFor_cons]
      by_cases h : nm = name
      · subst h
        rw [if_pos rfl]
        refine List.Pairwise.cons ?_ (ih _ _)
        intro v hv
        have h1 := outputsFor_gt rest _ _ _ hv
        rw [get_next_id_snd, seqv_set_self] at h1
        rw [get_next_id_fst]
        exact h1
      · rw [if_neg h]
        exact ih _ _

lemma outputsFor_length (tr : List String) :
    ∀ cs name, (outputsFor name cs tr).length = tr.count name := by
  induction tr with
  | nil => intro cs name; simp [outputsFor_nil]
  | cons nm rest ih =>
      intro cs name
      rw [outputsFor_cons, List.count_cons]
      by_cases h : nm = name
      · rw [if_pos h]
        simp [List.length_cons, ih, h]
      · rw [if_neg h]
        have : (nm == name) = false := by simp [h]
        simp [ih, this]

lemma hasKey_strip_id (d : Doc) : hasKey (strip_id d) "_id" = false := by
  induction d with
  | nil => rfl
  | cons kv rest ih =>
      by_cases h : kv.1 == "_id"
      · simp [strip_id, hasKey, List.filter_cons, h] at ih ⊢
      · simp [strip_id, hasKey, List.filter_cons, h] at ih ⊢


lemma find_all_no_id_clean (docs : List Doc) :
    (find_all_no_id docs).all (fun d => !(hasKey d "_id")) = true := by
  simp only [find_all_no_id, List.all_eq_true, List.mem_map]
  rintro d ⟨d0, _, rfl⟩
  simp [hasKey_strip_id]

/-- Claim C1: for a sequence name with no counter document, the first
`get_next_id` call returns `1`, and the counter is created (holding `1`) by
the single atomic find-and-modify operation itself: the final counter state
is exactly the post-state of that one operation, with no further write. -/
theorem get_next_id_first_call (cs : Counters) (name : String)
    (h : cs name = none) :
    (get_next_id cs name).1 = 1 ∧
    (get_next_id cs name).2 = (find_one_and_update_inc cs name).2 ∧
    (get_next_id cs name).2 name = some 1 := by
  have hs : seqv cs name = 0 := by simp [seqv, h]
  refine ⟨?_, ?_, ?_⟩
  · rw [get_next_id_fst, hs]
    rfl
  · rw [get_next_id_snd, hs]
    simp [find_one_and_update_inc, h]
  · rw [get_next_id_snd, hs]
    simp [counters_set]

/-- Witness for C1 at a concrete input: an empty counters table and the
sequence name `projects`. -/
theorem get_next_id_first_call_witness :
    ((fun _ => none : Counters) "projects" = none) ∧
    (get_next_id (fun _ => none) "projects").1 = 1 :=
  ⟨rfl, (get_next_id_first_call (fun _ => none) "projects" rfl).1⟩

/-- Claim C2: any serialization of concurrent `get_next_id` calls (each call
is one atomic store operation, so every concurrent schedule is equivalent to
some call list `tr`) hands the callers of sequence `name` pairwise distinct
values, one value per call to `name`. -/
theorem concurrent_ids_distinct (cs : Counters) (name : String)
    (tr : List String) :
    (outputsFor name cs tr).Nodup ∧
    (outputsFor name cs tr).length = tr.count name :=
  ⟨List.Pairwise.imp (fun h => ne_of_lt h) (outputsFor_pairwise_lt tr cs name),
   outputsFor_length tr cs name⟩

/-- Claim C3: across any sequence of `get_next_id` calls, each counter's
`sequence_value` is monotonically non-decreasing, and the values returned for
a fixed sequence name are strictly increasing (so no value is handed out
twice for that name). -/
theorem sequence_values_monotone (cs : Counters) (tr : List String)
    (name : String) :
    seqv cs name ≤ seqv (run_trace cs tr) name ∧
    (outputsFor name cs tr).Pairwise (· < ·) :=
  ⟨run_trace_mono tr cs name, outputsFor_pairwise_lt tr cs name⟩

/-- Claim C4: when the atomic find-and-modify reports no document, the body
of `get_next_id` performs the explicit upsert setting `sequence_value = 1`
and returns `1`; and for every counters state and every sequence name
(known or unknown) `get_next_id` produces a result — it is a total function —
after which the counter document always exists. -/
theorem get_next_id_fallback_and_total (cs : Counters) (name : String) :
    get_next_id_body none cs name = (1, counters_set cs name 1) ∧
    (get_next_id cs name).2 name = some (seqv cs name + 1) := by
  refine ⟨rfl, ?_⟩
  rw [get_next_id_snd]
  simp [counters_set]

/-- Claim C5: `submit_contact` answers 400 exactly when the JSON payload is
absent or the empty object, and otherwise inserts the payload verbatim and
answers 201; `subscribe` answers 400 exactly when the payload is absent,
empty, or lacks an `email` key, and otherwise inserts it verbatim and
answers 201. -/
theorem submission_api_validation (db : DB) (p : Option Doc) :
    ((submit_contact db p).1.status = 400 ↔ (p = none ∨ p = some [])) ∧
    (∀ d, p = some d → d ≠ [] →
      submit_contact db p =
        (Resp.created "Contact submitted" none,
         { db with contacts := insert_one db.contacts d db.nextOid,
                   nextOid := db.nextOid + 1 })) ∧
    ((subscribe db p).1.status = 400 ↔
      (p = none ∨ ∃ d, p = some d ∧ (d = [] ∨ hasKey d "email" = false))) ∧
    (∀ d, p = some d → hasKey d "email" = true →
      subscribe db p =
        (Resp.created "Subscribed" none,
         { db with subscribers := insert_one db.subscribers d db.nextOid,
                   nextOid := db.nextOid + 1 })) := by
  refine ⟨?_, ?_, ?_, ?_⟩
  · cases p with
    | none => simp [submit_contact, Resp.status]
    | some d =>
        by_cases hd : d = []
        · subst hd; simp [submit_contact, Resp.status]
        · simp [submit_contact, Resp.status, hd]
  · rintro d rfl hd
    simp [submit_contact, hd]
  · cases p with
    | none => simp [subscribe, Resp.status]
    | some d =>
        by_cases hd : d = []
        · subst hd; simp [subscribe, Resp.status, hasKey]
        · by_cases he : hasKey d "email"
          · simp [subscribe, Resp.status, hd, he]
          · simp [subscribe, Resp.status, hd, he]
  · rintro d rfl he
    have hd : d ≠ [] := by
      intro h; subst h; simp [hasKey] at he
    simp [subscribe, hd, he]

/-- Witness for C5 at concrete inputs: a one-field contact payload and a
subscriber payload carrying an `email` key. -/
theorem submission_api_validation_witness :
    submit_contact emptyDB (some [("name", JVal.s "A")]) =
      (Resp.created "Contact submitted" none,
       { emptyDB with
           contacts := insert_one emptyDB.contacts [("name", JVal.s "A")] emptyDB.nextOid,
           nextOid := emptyDB.nextOid + 1 }) ∧
    subscribe emptyDB (some [("email", JVal.s "a@b.com")]) =
      (Resp.created "Subscribed" none,
       { emptyDB with
           subscribers := insert_one emptyDB.subscribers [("email", JVal.s "a@b.com")] emptyDB.nextOid,
           nextOid := emptyDB.nextOid + 1 }) :=
  ⟨(submission_api_validation emptyDB (some [("name", JVal.s "A")])).2.1
      [("name", JVal.s "A")] rfl (by decide),
   (submission_api_validation emptyDB (some [("email", JVal.s "a@b.com")])).2.2.2
      [("email", JVal.s "a@b.com")] rfl (by decide)⟩

/-- Claim C6: `add_project` answers 400 when the `image` part is absent,
whatever the other fields hold; and answers 400 when the `image` part is
present but `name` or `description` is missing or empty. -/
theorem add_project_validation (db : DB) (req : ProjectReq) :
    (req.image = none →
      add_project db req = (Resp.badRequest "No image uploaded", db)) ∧
    (∀ f, req.image = some f →
      (opt_str_falsy req.name || opt_str_falsy req.description) = true →
      add_project db req =
        (Resp.badRequest "Name and description are required", db)) := by
  constructor
  · intro h
    simp [add_project, h]
  · intro f hf hv
    simp [add_project, hf, hv]

/-- Witness for C6 at concrete inputs: a request with no image part, and one
with an image part but an empty name. -/
theorem add_project_validation_witness :
    add_project emptyDB { image := none, name := some "X", description := some "Y" } =
      (Resp.badRequest "No image uploaded", emptyDB) ∧
    add_project emptyDB
        { image := some { filename := "a.jpg", content_type := "image/jpeg", content := [1] },
          name := some "", description := some "Y" } =
      (Resp.badRequest "Name and description are required", emptyDB) :=
  ⟨(add_project_validation emptyDB _).1 rfl,
   (add_project_validation emptyDB _).2
      { filename := "a.jpg", content_type := "image/jpeg", content := [1] }
      rfl (by decide)⟩

/-- Claim C7: a successful `add_project` request (image part with a non-empty
filename, non-empty name and description) answers 201; the returned data's
`image_url` is `"data:" ++ content_type ++ ";base64," ++ base64(bytes)`, its
`id` is one more than the previously highest-issued `projects` sequence
value, the persisted record is `{id, name, description, image_url}`, and the
response carries the store-assigned identifier as an extra string field. -/
theorem add_project_success (db : DB) (req : ProjectReq) (f : FilePart)
    (nm ds : String) (hf : req.image = some f) (hfn : f.filename ≠ "")
    (hn : req.name = some nm) (hnn : nm ≠ "")
    (hd : req.description = some ds) (hdn : ds ≠ "") :
    add_project db req =
      (Resp.created "Project created"
        (some [("id", JVal.i (seqv db.counters "projects" + 1)),
               ("name", JVal.s nm), ("description", JVal.s ds),
               ("image_url",
                JVal.s ("data:" ++ f.content_type ++ ";base64," ++
                        b64encode f.content)),
               ("_id", JVal.s (oidStr db.nextOid))]),
       { db with
           counters := counters_set db.counters "projects"
                         (seqv db.counters "projects" + 1),
           projects := insert_one db.projects
             [("id", JVal.i (seqv db.counters "projects" + 1)),
              ("name", JVal.s nm), ("description", JVal.s ds),
              ("image_url",
               JVal.s ("data:" ++ f.content_type ++ ";base64," ++
                       b64encode f.content))]
             db.nextOid,
           nextOid := db.nextOid + 1 }) := by
  simp [add_project, hf, hn, hd, hfn, hnn, hdn, opt_str_falsy, get_next_id_eq]

/-- Witness for C7 at a concrete input: a fresh database, a JPEG image part
with bytes `[1, 2, 3]`, name `X` and description `Y`. -/
theorem add_project_success_witness :
    add_project emptyDB
        { image := some { filename := "a.jpg", content_type := "image/jpeg",
                          content := [1, 2, 3] },
          name := some "X", description := some "Y" } =
      (Resp.created "Project created"
        (some [("id", JVal.i (seqv emptyDB.counters "projects" + 1)),
               ("name", JVal.s "X"), ("description", JVal.s "Y"),
               ("image_url",
                JVal.s ("data:" ++ "image/jpeg" ++ ";base64," ++
                        b64encode [1, 2, 3])),
               ("_id", JVal.s (oidStr emptyDB.nextOid))]),
       { emptyDB with
           counters := counters_set emptyDB.counters "projects"
                         (seqv emptyDB.counters "projects" + 1),
           projects := insert_one emptyDB.projects
             [("id", JVal.i (seqv emptyDB.counters "projects" + 1)),
              ("name", JVal.s "X"), ("description", JVal.s "Y"),
              ("image_url",
               JVal.s ("data:" ++ "image/jpeg" ++ ";base64," ++
                       b64encode [1, 2, 3]))]
             emptyDB.nextOid,
           nextOid := emptyDB.nextOid + 1 }) :=
  add_project_success emptyDB _
    { filename := "a.jpg", content_type := "image/jpeg", content := [1, 2, 3] }
    "X" "Y" rfl (by decide) rfl (by decide) rfl (by decide)

/-- Claim C8: each read endpoint returns every stored document of its
collection (in store order, each one with the storage identifier projected
away), and no returned element carries an `_id` field. -/
theorem read_endpoints_strip_storage_id (db : DB) :
    (get_projects db = db.projects.map strip_id ∧
      (get_projects db).all (fun d => !(hasKey d "_id")) = true) ∧
    (get_clients db = db.clients.map strip_id ∧
      (get_clients db).all (fun d => !(hasKey d "_id")) = true) ∧
    (get_all_contacts db = db.contacts.map strip_id ∧
      (get_all_contacts db).all (fun d => !(hasKey d "_id")) = true) ∧
    (get_all_subscribers db = db.subscribers.map strip_id ∧
      (get_all_subscribers db).all (fun d => !(hasKey d "_id")) = true) :=
  ⟨⟨rfl, find_all_no_id_clean db.projects⟩,
   ⟨rfl, find_all_no_id_clean db.clients⟩,
   ⟨rfl, find_all_no_id_clean db.contacts⟩,
   ⟨rfl, find_all_no_id_clean db.subscribers⟩⟩

/-- Counterexample to claim C9 as stated: a request whose `image` part is
present with a falsy (empty-filename) file but whose `name` field is missing
does take the 400 validation branch — the handler does not fall through. -/
theorem falsy_file_counterexample :
    ({ image := some { filename := "", content_type := "image/jpeg",
                       content := [1] },
       name := none, description := some "Y" } : ProjectReq).image =
      some { filename := "", content_type := "image/jpeg", content := [1] } ∧
    ({ filename := "", content_type := "image/jpeg",
       content := [1] } : FilePart).filename = "" ∧
    (add_project emptyDB
        { image := some { filename := "", content_type := "image/jpeg",
                          content := [1] },
          name := none, description := some "Y" }).1 =
      Resp.badRequest "Name and description are required" ∧
    (add_project emptyDB
        { image := some { filename := "", content_type := "image/jpeg",
                          content := [1] },
          name := none, description := some "Y" }).1 ≠ Resp.noResponse := by
  refine ⟨rfl, rfl, rfl, ?_⟩
  decide

/-- Claim C9 (amended): when the `image` part is present with a falsy
(empty-filename) file AND the required text fields are present and non-empty,
neither the 400 branch, the 201 branch, nor the exception handler fires: the
handler body falls through producing no response, leaving the state alone. -/
theorem falsy_file_falls_through (db : DB) (preq : ProjectReq)
    (creq : ClientReq) (f g : FilePart)
    (hpf : preq.image = some f) (hpe : f.filename = "")
    (hpn : opt_str_falsy preq.name = false)
    (hpd : opt_str_falsy preq.description = false)
    (hcf : creq.image = some g) (hce : g.filename = "")
    (hcn : opt_str_falsy creq.name = false)
    (hcd : opt_str_falsy creq.description = false)
    (hcg : opt_str_falsy creq.designation = false) :
    add_project db preq = (Resp.noResponse, db) ∧
    add_client db creq = (Resp.noResponse, db) := by
  constructor
  · simp [add_project, hpf, hpn, hpd, hpe]
  · simp [add_client, hcf, hcn, hcd, hcg, hce]

/-- Witness for the amended C9 at concrete inputs: empty-filename image
parts with all required text fields present and non-empty. -/
theorem falsy_file_falls_through_witness :
    add_project emptyDB
        { image := some { filename := "", content_type := "image/jpeg",
                          content := [1] },
          name := some "X", description := some "Y" } =
      (Resp.noResponse, emptyDB) ∧
    add_client emptyDB
        { image := some { filename := "", content_type := "image/jpeg",
                          content := [1] },
          name := some "X", description := some "Y",
          designation := some "CEO" } =
      (Resp.noResponse, emptyDB) :=
  falsy_file_falls_through emptyDB _ _
    { filename := "", content_type := "image/jpeg", content := [1] }
    { filename := "", content_type := "image/jpeg", content := [1] }
    rfl rfl (by decide) (by decide) rfl rfl (by decide) (by decide) (by decide)

/-- Claim C10: whenever `add_project` or `add_client` answers a 400
validation error, the database state is unchanged: no sequence value is
consumed and no document is inserted anywhere. -/
theorem validation_reject_changes_nothing (db : DB) (preq : ProjectReq)
    (creq : ClientReq) :
    (∀ m, (add_project db preq).1 = Resp.badRequest m →
      (add_project db preq).2 = db) ∧
    (∀ m, (add_client db creq).1 = Resp.badRequest m →
      (add_client db creq).2 = db) := by
  constructor
  · intro m hm
    cases h : preq.image with
    | none => simp [add_project, h]
    | some f =>
        by_cases h1 : (opt_str_falsy preq.name ||
            opt_str_falsy preq.description) = true
        · simp [add_project, h, h1]
        · by_cases h2 : f.filename = ""
          · simp [add_project, h, h1, h2]
          · simp [add_project, h, h1, h2] at hm
  · intro m hm
    cases h : creq.image with
    | none => simp [add_client, h]
    | some f =>
        by_cases h1 : (opt_str_falsy creq.name || opt_str_falsy creq.description ||
            opt_str_falsy creq.designation) = true
        · simp [add_client, h, h1]
        · by_cases h2 : f.filename = ""
          · simp [add_client, h, h1, h2]
          · simp [add_client, h, h1, h2] at hm

/-- Witness for C10 at concrete inputs: requests with no image part are
rejected with 400 and leave the empty database untouched. -/
theorem validation_reject_changes_nothing_witness :
    (add_project emptyDB
        { image := none, name := some "X", description := some "Y" }).1 =
      Resp.badRequest "No image uploaded" ∧
    (add_project emptyDB
        { image := none, name := some "X", description := some "Y" }).2 =
      emptyDB ∧
    (add_client emptyDB
        { image := none, name := some "X", description := some "Y",
          designation := some "CEO" }).2 = emptyDB :=
  ⟨rfl,
   (validation_reject_changes_nothing emptyDB
      { image := none, name := some "X", description := some "Y" }
      { image := none, name := some "X", description := some "Y",
        designation := some "CEO" }).1 "No image uploaded" rfl,
   (validation_reject_changes_nothing emptyDB
      { image := none, name := some "X", description := some "Y" }
      { image := none, name := some "X", description := some "Y",
        designation := some "CEO" }).2 "No image uploaded" rfl⟩
